import Mathlib

/-!
Shallow embedding of `src/simpleperf/perf_regs.cpp` (simpleperf register
decoding): architecture parsing, ABI resolution, supported register masks,
register-name resolution, and the sparse-to-dense `RegSet` decoder, together
with theorems settling the specification claims.
-/

namespace Simpleperf

/-- The `ArchType` enumeration from `perf_regs.h` (declared alongside the
source file): the closed set of architectures the decoder handles. -/
inductive ArchType where
  | ARCH_X86_32
  | ARCH_X86_64
  | ARCH_ARM
  | ARCH_ARM64
  | ARCH_RISCV64
  | ARCH_UNSUPPORTED
deriving DecidableEq, Repr

/-- Modelled from the spec: `PERF_SAMPLE_REGS_ABI_32`, the sample ABI tag
meaning captured in 32-bit mode; the `perf_event.h` header defining it is
not under `src/`. Value from the Linux perf uapi. -/
def PERF_SAMPLE_REGS_ABI_32 : Nat := 1

/-- Modelled from the spec: `PERF_SAMPLE_REGS_ABI_64`, the sample ABI tag
meaning captured in 64-bit mode; the `perf_event.h` header defining it is
not under `src/`. Value from the Linux perf uapi. -/
def PERF_SAMPLE_REGS_ABI_64 : Nat := 2

/-- Modelled from the spec: x86 register indices from the kernel perf uapi
header, which is not under `src/`. `AX..GS` are the shared x86 numbering. -/
def PERF_REG_X86_AX : Nat := 0
def PERF_REG_X86_BX : Nat := 1
def PERF_REG_X86_CX : Nat := 2
def PERF_REG_X86_DX : Nat := 3
def PERF_REG_X86_SI : Nat := 4
def PERF_REG_X86_DI : Nat := 5
def PERF_REG_X86_BP : Nat := 6
def PERF_REG_X86_SP : Nat := 7
def PERF_REG_X86_IP : Nat := 8
def PERF_REG_X86_FLAGS : Nat := 9
def PERF_REG_X86_CS : Nat := 10
def PERF_REG_X86_SS : Nat := 11
def PERF_REG_X86_DS : Nat := 12
def PERF_REG_X86_ES : Nat := 13
def PERF_REG_X86_FS : Nat := 14
def PERF_REG_X86_GS : Nat := 15
def PERF_REG_X86_32_MAX : Nat := 16
def PERF_REG_X86_R8 : Nat := 16
def PERF_REG_X86_R9 : Nat := 17
def PERF_REG_X86_R10 : Nat := 18
def PERF_REG_X86_R11 : Nat := 19
def PERF_REG_X86_R12 : Nat := 20
def PERF_REG_X86_R13 : Nat := 21
def PERF_REG_X86_R14 : Nat := 22
def PERF_REG_X86_R15 : Nat := 23
def PERF_REG_X86_64_MAX : Nat := 24

/-- Modelled from the spec: ARM register indices from the kernel perf uapi
header, which is not under `src/`. -/
def PERF_REG_ARM_R0 : Nat := 0
def PERF_REG_ARM_R10 : Nat := 10
def PERF_REG_ARM_FP : Nat := 11
def PERF_REG_ARM_IP : Nat := 12
def PERF_REG_ARM_SP : Nat := 13
def PERF_REG_ARM_LR : Nat := 14
def PERF_REG_ARM_PC : Nat := 15
def PERF_REG_ARM_MAX : Nat := 16

/-- Modelled from the spec: ARM64 register indices from the kernel perf uapi
header, which is not under `src/`. -/
def PERF_REG_ARM64_X0 : Nat := 0
def PERF_REG_ARM64_X29 : Nat := 29
def PERF_REG_ARM64_LR : Nat := 30
def PERF_REG_ARM64_SP : Nat := 31
def PERF_REG_ARM64_PC : Nat := 32
def PERF_REG_ARM64_MAX : Nat := 33

/-- Modelled from the spec: RISC-V register indices from the kernel perf uapi
header, which is not under `src/`. -/
def PERF_REG_RISCV_PC : Nat := 0
def PERF_REG_RISCV_RA : Nat := 1
def PERF_REG_RISCV_SP : Nat := 2
def PERF_REG_RISCV_GP : Nat := 3
def PERF_REG_RISCV_TP : Nat := 4
def PERF_REG_RISCV_T0 : Nat := 5
def PERF_REG_RISCV_T1 : Nat := 6
def PERF_REG_RISCV_T2 : Nat := 7
def PERF_REG_RISCV_S0 : Nat := 8
def PERF_REG_RISCV_S1 : Nat := 9
def PERF_REG_RISCV_A0 : Nat := 10
def PERF_REG_RISCV_A1 : Nat := 11
def PERF_REG_RISCV_A2 : Nat := 12
def PERF_REG_RISCV_A3 : Nat := 13
def PERF_REG_RISCV_A4 : Nat := 14
def PERF_REG_RISCV_A5 : Nat := 15
def PERF_REG_RISCV_A6 : Nat := 16
def PERF_REG_RISCV_A7 : Nat := 17
def PERF_REG_RISCV_S2 : Nat := 18
def PERF_REG_RISCV_S3 : Nat := 19
def PERF_REG_RISCV_S4 : Nat := 20
def PERF_REG_RISCV_S5 : Nat := 21
def PERF_REG_RISCV_S6 : Nat := 22
def PERF_REG_RISCV_S7 : Nat := 23
def PERF_REG_RISCV_S8 : Nat := 24
def PERF_REG_RISCV_S9 : Nat := 25
def PERF_REG_RISCV_S10 : Nat := 26
def PERF_REG_RISCV_S11 : Nat := 27
def PERF_REG_RISCV_T3 : Nat := 28
def PERF_REG_RISCV_T4 : Nat := 29
def PERF_REG_RISCV_T5 : Nat := 30
def PERF_REG_RISCV_T6 : Nat := 31
def PERF_REG_RISCV_MAX : Nat := 32

/-- One step of C `atoi` digit accumulation: consume a maximal prefix of
decimal digits, accumulating the value. -/
def atoiDigits : List Char → Nat → Nat
  | [], acc => acc
  | c :: rest, acc =>
      if '0' ≤ c ∧ c ≤ '9' then atoiDigits rest (acc * 10 + (c.toNat - '0'.toNat))
      else acc

/-- C `isspace` on the characters `atoi` skips. -/
def isAtoiSpace (c : Char) : Bool :=
  c = ' ' || c = '\t' || c = '\n' || c = Char.ofNat 11 || c = Char.ofNat 12 || c = '\r'

/-- C `atoi`: skip leading whitespace, read an optional sign, then a maximal
digit prefix; yields 0 when no digits are found. -/
def atoi : List Char → Int
  | [] => 0
  | c :: rest =>
      if isAtoiSpace c then atoi rest
      else if c = '-' then -(atoiDigits rest 0 : Int)
      else if c = '+' then (atoiDigits rest 0 : Int)
      else atoiDigits (c :: rest) 0

/-- `GetArchType` from the source: parse a textual architecture identifier
(modelled as the byte string of a C++ `std::string`, hence a `List Char`).
`arch.getD 3` with default NUL models C++ `arch[3]`, which reads the NUL
terminator when the string has length exactly 3. -/
def GetArchType (arch : List Char) : ArchType :=
  if arch = "x86".toList ∨ arch = "i686".toList then .ARCH_X86_32
  else if arch = "x86_64".toList then .ARCH_X86_64
  else if arch = "riscv64".toList then .ARCH_RISCV64
  else if arch = "aarch64".toList then .ARCH_ARM64
  else if "arm".toList.isPrefixOf arch then
    if arch.getD 3 (Char.ofNat 0) = 'v' ∧ 8 ≤ atoi (arch.drop 4) then .ARCH_ARM64
    else .ARCH_ARM
  else .ARCH_UNSUPPORTED

/-- `GetArchForAbi` from the source: resolve the effective architecture of a
sample from the host architecture and the sample's ABI tag. -/
def GetArchForAbi (machine_arch : ArchType) (abi : Nat) : ArchType :=
  if abi = PERF_SAMPLE_REGS_ABI_32 then
    if machine_arch = .ARCH_X86_64 then .ARCH_X86_32
    else if machine_arch = .ARCH_ARM64 then .ARCH_ARM
    else machine_arch
  else if abi = PERF_SAMPLE_REGS_ABI_64 then
    if machine_arch = .ARCH_X86_32 then .ARCH_X86_64
    else if machine_arch = .ARCH_ARM then .ARCH_ARM64
    else machine_arch
  else machine_arch

/-- Clear bit `b` of a 64-bit word `m`: C's `m & ~(1ULL << b)`. -/
def clearBit64 (m b : Nat) : Nat := m &&& ((2 ^ 64 - 1) ^^^ (1 <<< b))

/-- `GetSupportedRegMask` from the source: the collectible-register bitmask
of an architecture. -/
def GetSupportedRegMask (arch : ArchType) : Nat :=
  match arch with
  | .ARCH_X86_32 =>
      clearBit64 (clearBit64 (clearBit64 (clearBit64 ((1 <<< PERF_REG_X86_32_MAX) - 1)
        PERF_REG_X86_DS) PERF_REG_X86_ES) PERF_REG_X86_FS) PERF_REG_X86_GS
  | .ARCH_X86_64 =>
      clearBit64 (clearBit64 (clearBit64 (clearBit64 ((1 <<< PERF_REG_X86_64_MAX) - 1)
        PERF_REG_X86_DS) PERF_REG_X86_ES) PERF_REG_X86_FS) PERF_REG_X86_GS
  | .ARCH_ARM => (1 <<< PERF_REG_ARM_MAX) - 1
  | .ARCH_ARM64 => (1 <<< PERF_REG_ARM64_MAX) - 1
  | .ARCH_RISCV64 => (1 <<< PERF_REG_RISCV_MAX) - 1
  | .ARCH_UNSUPPORTED => 0

/-- The `x86_reg_map` table from the source, as an association list (the
source uses an `unordered_map`; only membership and the mapped value are
observable through `find`). -/
def x86_reg_map : List (Nat × String) :=
  [(PERF_REG_X86_AX, "ax"), (PERF_REG_X86_BX, "bx"), (PERF_REG_X86_CX, "cx"),
   (PERF_REG_X86_DX, "dx"), (PERF_REG_X86_SI, "si"), (PERF_REG_X86_DI, "di"),
   (PERF_REG_X86_BP, "bp"), (PERF_REG_X86_SP, "sp"), (PERF_REG_X86_IP, "ip"),
   (PERF_REG_X86_FLAGS, "flags"), (PERF_REG_X86_CS, "cs"), (PERF_REG_X86_SS, "ss"),
   (PERF_REG_X86_DS, "ds"), (PERF_REG_X86_ES, "es"), (PERF_REG_X86_FS, "fs"),
   (PERF_REG_X86_GS, "gs")]

/-- The `arm_reg_map` table from the source. -/
def arm_reg_map : List (Nat × String) :=
  [(PERF_REG_ARM_FP, "fp"), (PERF_REG_ARM_IP, "ip"), (PERF_REG_ARM_SP, "sp"),
   (PERF_REG_ARM_LR, "lr"), (PERF_REG_ARM_PC, "pc")]

/-- The `arm64_reg_map` table from the source. -/
def arm64_reg_map : List (Nat × String) :=
  [(PERF_REG_ARM64_LR, "lr"), (PERF_REG_ARM64_SP, "sp"), (PERF_REG_ARM64_PC, "pc")]

/-- The `riscv64_reg_map` table from the source. -/
def riscv64_reg_map : List (Nat × String) :=
  [(PERF_REG_RISCV_PC, "pc"), (PERF_REG_RISCV_RA, "ra"), (PERF_REG_RISCV_SP, "sp"),
   (PERF_REG_RISCV_GP, "gp"), (PERF_REG_RISCV_TP, "tp"), (PERF_REG_RISCV_T0, "t0"),
   (PERF_REG_RISCV_T1, "t1"), (PERF_REG_RISCV_T2, "t2"), (PERF_REG_RISCV_S0, "s0"),
   (PERF_REG_RISCV_S1, "s1"), (PERF_REG_RISCV_A0, "a0"), (PERF_REG_RISCV_A1, "a1"),
   (PERF_REG_RISCV_A2, "a2"), (PERF_REG_RISCV_A3, "a3"), (PERF_REG_RISCV_A4, "a4"),
   (PERF_REG_RISCV_A5, "a5"), (PERF_REG_RISCV_A6, "a6"), (PERF_REG_RISCV_A7, "a7"),
   (PERF_REG_RISCV_S2, "s2"), (PERF_REG_RISCV_S3, "s3"), (PERF_REG_RISCV_S4, "s4"),
   (PERF_REG_RISCV_S5, "s5"), (PERF_REG_RISCV_S6, "s6"), (PERF_REG_RISCV_S7, "s7"),
   (PERF_REG_RISCV_S8, "s8"), (PERF_REG_RISCV_S9, "s9"), (PERF_REG_RISCV_S10, "s10"),
   (PERF_REG_RISCV_S11, "s11"), (PERF_REG_RISCV_T3, "t3"), (PERF_REG_RISCV_T4, "t4"),
   (PERF_REG_RISCV_T5, "t5"), (PERF_REG_RISCV_T6, "t6")]

/-- The body of the `ARCH_ARM64` case of `GetRegName`, shared with
`ARCH_ARM` via the source's `FALLTHROUGH_INTENDED`; `none` models the fatal
`CHECK` on a table miss. -/
def getRegNameArm64Body (reg : Nat) : Option String :=
  if PERF_REG_ARM64_X0 ≤ reg ∧ reg ≤ PERF_REG_ARM64_X29 then
    some ("r" ++ toString (reg - PERF_REG_ARM64_X0))
  else arm64_reg_map.lookup reg

/-- The body of the `ARCH_X86_32` case of `GetRegName`, shared with
`ARCH_X86_64` via the source's `FALLTHROUGH_INTENDED`; `none` models the
fatal `CHECK` on a table miss. -/
def getRegNameX86Body (reg : Nat) : Option String :=
  x86_reg_map.lookup reg

/-- `GetRegName` from the source. `some s` models returning the string `s`;
`none` models the fatal `CHECK` failure on an exhaustive-table miss. -/
def GetRegName (regno : Nat) (arch : ArchType) : Option String :=
  match arch with
  | .ARCH_X86_64 =>
      if PERF_REG_X86_R8 ≤ regno ∧ regno ≤ PERF_REG_X86_R15 then
        some ("r" ++ toString (regno - PERF_REG_X86_R8 + 8))
      else getRegNameX86Body regno
  | .ARCH_X86_32 => getRegNameX86Body regno
  | .ARCH_ARM =>
      if PERF_REG_ARM_R0 ≤ regno ∧ regno ≤ PERF_REG_ARM_R10 then
        some ("r" ++ toString (regno - PERF_REG_ARM_R0))
      else
        match arm_reg_map.lookup regno with
        | some s => some s
        | none => getRegNameArm64Body regno
  | .ARCH_ARM64 => getRegNameArm64Body regno
  | .ARCH_RISCV64 => riscv64_reg_map.lookup regno
  | .ARCH_UNSUPPORTED => "unknown"

/-- The decoded register set of one sample: effective architecture, presence
mask, and the dense 64-slot register array (modelled as a function on slot
indices; slots `≥ 64` are never touched and stay at the `memset` zero). -/
structure RegSet where
  arch : ArchType
  valid_mask : Nat
  data : Nat → Nat

/-- The expansion loop of the `RegSet` constructor: walk `i` from 0 to 63,
and at each set bit of `valid_mask` consume the next packed entry
(`valid_regs[j++]`). `none` models the out-of-bounds read the C++ would
perform when the packed array is shorter than the popcount. -/
def expandLoop (valid_mask : Nat) (i : Nat) (valid_regs : List Nat)
    (data : Nat → Nat) : Option (Nat → Nat) :=
  if i < 64 then
    if (valid_mask >>> i) % 2 = 1 then
      match valid_regs with
      | [] => none
      | v :: rest => expandLoop valid_mask (i + 1) rest (fun k => if k = i then v else data k)
    else expandLoop valid_mask (i + 1) valid_regs data
  else some data
termination_by 64 - i

/-- The result of a register query: `fatal` models the process-terminating
`CHECK` failure, `failure` the `return false` path (the output location is
untouched), `success v` the `return true` path with `*value = v`. -/
inductive QueryResult where
  | fatal
  | failure
  | success (v : Nat)
deriving DecidableEq, Repr

/-- The `RegSet` constructor from the source: resolve the effective
architecture from the current (host) architecture and the ABI tag,
zero-initialise the dense array, run the expansion loop, then apply the
ARM64-host/32-bit-ABI program-counter copy. -/
def RegSet.make (current_arch : ArchType) (abi : Nat) (valid_mask : Nat)
    (valid_regs : List Nat) : Option RegSet :=
  match expandLoop valid_mask 0 valid_regs (fun _ => 0) with
  | none => none
  | some d =>
      let d' :=
        if current_arch = .ARCH_ARM64 ∧ abi = PERF_SAMPLE_REGS_ABI_32 then
          fun k => if k = PERF_REG_ARM_PC then d PERF_REG_ARM64_PC else d k
        else d
      some { arch := GetArchForAbi current_arch abi, valid_mask := valid_mask, data := d' }

/-- `RegSet::GetRegValue` from the source: `CHECK_LT(regno, 64)` then test
the presence bit. -/
def RegSet.GetRegValue (r : RegSet) (regno : Nat) : QueryResult :=
  if regno < 64 then
    if (r.valid_mask >>> regno) % 2 = 1 then .success (r.data regno)
    else .failure
  else .fatal

/-- `RegSet::GetSpRegValue` from the source: dispatch on the effective
architecture to the stack-pointer index, then delegate to `GetRegValue`. -/
def RegSet.GetSpRegValue (r : RegSet) : QueryResult :=
  match r.arch with
  | .ARCH_X86_32 => r.GetRegValue PERF_REG_X86_SP
  | .ARCH_X86_64 => r.GetRegValue PERF_REG_X86_SP
  | .ARCH_ARM => r.GetRegValue PERF_REG_ARM_SP
  | .ARCH_ARM64 => r.GetRegValue PERF_REG_ARM64_SP
  | .ARCH_RISCV64 => r.GetRegValue PERF_REG_RISCV_SP
  | .ARCH_UNSUPPORTED => .failure

/-- `RegSet::GetIpRegValue` from the source: dispatch on the effective
architecture to the program-counter/instruction-pointer index, then delegate
to `GetRegValue`; the two x86 cases share `PERF_REG_X86_IP`. -/
def RegSet.GetIpRegValue (r : RegSet) : QueryResult :=
  match r.arch with
  | .ARCH_X86_64 => r.GetRegValue PERF_REG_X86_IP
  | .ARCH_X86_32 => r.GetRegValue PERF_REG_X86_IP
  | .ARCH_ARM => r.GetRegValue PERF_REG_ARM_PC
  | .ARCH_ARM64 => r.GetRegValue PERF_REG_ARM64_PC
  | .ARCH_RISCV64 => r.GetRegValue PERF_REG_RISCV_PC
  | .ARCH_UNSUPPORTED => .failure

/-- Number of set bits of `mask` strictly below index `k` (the rank of a set
bit among the ascending set-bit positions); `rankBelow mask 64` is the
popcount of a 64-bit mask. -/
def rankBelow (mask : Nat) : Nat → Nat
  | 0 => 0
  | k + 1 => rankBelow mask k + (if mask.testBit k then 1 else 0)

lemma rankBelow_mono (mask : Nat) {i j : Nat} (h : i ≤ j) :
    rankBelow mask i ≤ rankBelow mask j := by
  induction j with
  | zero =>
      have hz : i = 0 := Nat.le_zero.mp h
      subst hz
      exact Nat.le_refl _
  | succ j ih =>
      rcases Nat.lt_or_ge i (j + 1) with hlt | hge
      · exact Nat.le_trans (ih (Nat.lt_succ_iff.mp hlt)) (Nat.le_add_right _ _)
      · have heq : i = j + 1 := Nat.le_antisymm h hge
        subst heq
        exact Nat.le_refl _

lemma testBit_iff_shift (m i : Nat) : m.testBit i = true ↔ (m >>> i) % 2 = 1 := by
  rw [Nat.testBit_to_div_mod, Nat.shiftRight_eq_div_pow]
  simp

lemma testBit_false_iff_shift (m i : Nat) :
    m.testBit i = false ↔ ¬((m >>> i) % 2 = 1) := by
  rw [Nat.testBit_to_div_mod, Nat.shiftRight_eq_div_pow]
  simp

/-- Invariant of the expansion loop: starting at index `i` with the packed
entries that remain after consuming one entry per set bit below `i`, the loop
succeeds and fills each set-bit slot in `[i, 64)` with the packed entry at
that bit's rank, leaving every other slot untouched. -/
lemma expandLoop_inv (mask : Nat) (vals : List Nat)
    (hlen : vals.length = rankBelow mask 64) :
    ∀ fuel i data, 64 - i ≤ fuel → i ≤ 64 →
    ∃ d, expandLoop mask i (vals.drop (rankBelow mask i)) data = some d ∧
      (∀ k, k < i ∨ 64 ≤ k → d k = data k) ∧
      (∀ k, i ≤ k → k < 64 →
        d k = if mask.testBit k then vals.getD (rankBelow mask k) 0 else data k) := by
  intro fuel
  induction fuel with
  | zero =>
      intro i data hfuel hle
      have hi : i = 64 := Nat.le_antisymm hle (by omega)
      subst hi
      refine ⟨data, ?_, fun k _ => rfl, fun k hk hk' => absurd hk' (by omega)⟩
      rw [expandLoop.eq_def]
      simp
  | succ fuel ih =>
      intro i data hfuel hle
      rcases Nat.lt_or_ge i 64 with hi | hi
      · cases hb : mask.testBit i with
        | false =>
          -- bit i unset: keep the packed list, recurse at i+1
          have hrank : rankBelow mask (i + 1) = rankBelow mask i := by
            simp [rankBelow, hb]
          obtain ⟨d, hd, hlow, hhigh⟩ :=
            ih (i + 1) data (by omega) (by omega)
          refine ⟨d, ?_, ?_, ?_⟩
          · rw [expandLoop.eq_def]
            have hbit : ¬((mask >>> i) % 2 = 1) := (testBit_false_iff_shift mask i).mp hb
            rw [if_pos hi, if_neg hbit]
            rw [hrank] at hd
            exact hd
          · intro k hk
            exact hlow k (by omega)
          · intro k hik hk64
            rcases Nat.eq_or_lt_of_le hik with heq | hlt
            · subst heq
              rw [hb]
              rw [if_neg (by simp)]
              exact hlow i (Or.inl (Nat.lt_succ_self i))
            · exact hhigh k hlt hk64
        | true =>
          -- bit i set: consume the head of the remaining packed list
          have hrank : rankBelow mask (i + 1) = rankBelow mask i + 1 := by
            simp [rankBelow, hb]
          have hlt : rankBelow mask i < vals.length := by
            have h1 : rankBelow mask (i + 1) ≤ rankBelow mask 64 :=
              rankBelow_mono mask (by omega)
            omega
          have hdrop : vals.drop (rankBelow mask i) =
              vals[rankBelow mask i] :: vals.drop (rankBelow mask i + 1) :=
            List.drop_eq_getElem_cons hlt
          obtain ⟨d, hd, hlow, hhigh⟩ :=
            ih (i + 1) (fun k => if k = i then vals[rankBelow mask i] else data k)
              (by omega) (by omega)
          refine ⟨d, ?_, ?_, ?_⟩
          · rw [expandLoop.eq_def]
            have hbit : (mask >>> i) % 2 = 1 := (testBit_iff_shift mask i).mp hb
            rw [if_pos hi, if_pos hbit, hdrop]
            rw [hrank] at hd
            exact hd
          · intro k hk
            have hk' := hlow k (by omega)
            rw [hk']
            exact if_neg (by omega)
          · intro k hik hk64
            rcases Nat.eq_or_lt_of_le hik with heq | hlt2
            · subst heq
              have hki := hlow i (Or.inl (Nat.lt_succ_self i))
              rw [hki, if_pos rfl, hb, if_pos rfl,
                List.getD_eq_getElem vals 0 hlt]
            · have hkk := hhigh k hlt2 hk64
              rw [hkk]
              cases hbk : mask.testBit k with
              | false =>
                  simp only [Bool.false_eq_true, if_false]
                  exact if_neg (by omega)
              | true =>
                  simp
      · -- i = 64: the loop exits
        have hi64 : i = 64 := by omega
        subst hi64
        refine ⟨data, ?_, fun k _ => rfl, fun k hk hk' => absurd hk' (by omega)⟩
        rw [expandLoop.eq_def]
        simp

/-- The expansion loop, run from index 0 on the full packed list: every set
bit's slot receives the packed entry at that bit's rank, every other slot is
untouched. -/
lemma expandLoop_full (mask : Nat) (vals : List Nat) (data0 : Nat → Nat)
    (hlen : vals.length = rankBelow mask 64) :
    ∃ d, expandLoop mask 0 vals data0 = some d ∧
      ∀ k, k < 64 →
        d k = if mask.testBit k then vals.getD (rankBelow mask k) 0 else data0 k := by
  obtain ⟨d, hd, _, hhigh⟩ :=
    expandLoop_inv mask vals hlen 64 0 data0 (by omega) (by omega)
  rw [show rankBelow mask 0 = 0 from rfl, List.drop_zero] at hd
  exact ⟨d, hd, fun k hk => hhigh k (Nat.zero_le k) hk⟩

/-- Full characterisation of the `RegSet` constructor on well-formed input
(packed list length = popcount): it succeeds, stores the resolved effective
architecture and the input mask unchanged, and fills the dense array by the
expansion loop followed by the ARM64-host/32-bit-ABI program-counter copy. -/
lemma RegSet.make_spec (current_arch : ArchType) (abi mask : Nat) (vals : List Nat)
    (hlen : vals.length = rankBelow mask 64) :
    ∃ r, RegSet.make current_arch abi mask vals = some r ∧
      r.arch = GetArchForAbi current_arch abi ∧ r.valid_mask = mask ∧
      ∀ k, k < 64 →
        r.data k =
          if current_arch = .ARCH_ARM64 ∧ abi = PERF_SAMPLE_REGS_ABI_32 ∧
              k = PERF_REG_ARM_PC then
            (if mask.testBit PERF_REG_ARM64_PC then
              vals.getD (rankBelow mask PERF_REG_ARM64_PC) 0 else 0)
          else (if mask.testBit k then vals.getD (rankBelow mask k) 0 else 0) := by
  obtain ⟨d, hd, hdk⟩ := expandLoop_full mask vals (fun _ => 0) hlen
  by_cases hq : current_arch = .ARCH_ARM64 ∧ abi = PERF_SAMPLE_REGS_ABI_32
  · refine ⟨⟨GetArchForAbi current_arch abi, mask,
        fun k => if k = PERF_REG_ARM_PC then d PERF_REG_ARM64_PC else d k⟩,
        ?_, rfl, rfl, ?_⟩
    · rw [RegSet.make, hd]
      simp only [if_pos hq]
    · intro k hk
      simp only [hq, true_and]
      by_cases hk15 : k = PERF_REG_ARM_PC
      · rw [if_pos hk15]
        simp only [hk15, if_pos rfl]
        exact hdk PERF_REG_ARM64_PC (by norm_num [PERF_REG_ARM64_PC])
      · rw [if_neg hk15]
        simp only [if_neg hk15]
        exact hdk k hk
  · refine ⟨⟨GetArchForAbi current_arch abi, mask, d⟩, ?_, rfl, rfl, ?_⟩
    · rw [RegSet.make, hd]
      simp only [if_neg hq]
    · intro k hk
      rw [if_neg (by tauto)]
      exact hdk k hk

/-- A raw register query at an in-range index succeeds (returns a value)
exactly when the presence bit is set. -/
lemma getRegValue_success_iff (r : RegSet) (regno : Nat) (h : regno < 64) :
    (∃ v, r.GetRegValue regno = .success v) ↔ r.valid_mask.testBit regno = true := by
  rw [RegSet.GetRegValue, if_pos h, testBit_iff_shift]
  by_cases hb : (r.valid_mask >>> regno) % 2 = 1
  · rw [if_pos hb]
    exact ⟨fun _ => hb, fun _ => ⟨r.data regno, rfl⟩⟩
  · rw [if_neg hb]
    exact ⟨fun ⟨v, hv⟩ => absurd hv (by simp), fun hc => absurd hc hb⟩

/-- C2: `GetArchForAbi` maps (X86_64, abi32) to X86_32, (ARM64, abi32) to
ARM, (X86_32, abi64) to X86_64, (ARM, abi64) to ARM64, and returns the host
architecture unchanged in every other combination, RISCV64 included. -/
theorem regs_C2 (m : ArchType) (abi : Nat) :
    GetArchForAbi m abi =
      if m = .ARCH_X86_64 ∧ abi = PERF_SAMPLE_REGS_ABI_32 then .ARCH_X86_32
      else if m = .ARCH_ARM64 ∧ abi = PERF_SAMPLE_REGS_ABI_32 then .ARCH_ARM
      else if m = .ARCH_X86_32 ∧ abi = PERF_SAMPLE_REGS_ABI_64 then .ARCH_X86_64
      else if m = .ARCH_ARM ∧ abi = PERF_SAMPLE_REGS_ABI_64 then .ARCH_ARM64
      else m := by
  cases m <;>
    rw [GetArchForAbi] <;>
    by_cases h32 : abi = PERF_SAMPLE_REGS_ABI_32 <;>
    by_cases h64 : abi = PERF_SAMPLE_REGS_ABI_64 <;>
    simp_all [PERF_SAMPLE_REGS_ABI_32, PERF_SAMPLE_REGS_ABI_64]

/-- C3: for `regno < 64`, `GetRegValue` returns the stored value and
succeeds exactly when bit `regno` of `valid_mask` is set, and fails (without
touching the output) when it is unset. -/
theorem regs_C3 (r : RegSet) (regno : Nat) (h : regno < 64) :
    (r.valid_mask.testBit regno = true →
      r.GetRegValue regno = .success (r.data regno)) ∧
    (r.valid_mask.testBit regno = false → r.GetRegValue regno = .failure) := by
  constructor
  · intro hb
    rw [RegSet.GetRegValue, if_pos h, if_pos ((testBit_iff_shift _ _).mp hb)]
  · intro hb
    rw [RegSet.GetRegValue, if_pos h,
      if_neg ((testBit_false_iff_shift _ _).mp hb)]

theorem regs_C3_witness :
    (RegSet.mk .ARCH_ARM 4 (fun _ => 7)).GetRegValue 2 = .success 7 ∧
    (RegSet.mk .ARCH_ARM 4 (fun _ => 7)).GetRegValue 3 = .failure :=
  ⟨(regs_C3 (RegSet.mk .ARCH_ARM 4 (fun _ => 7)) 2 (by norm_num)).1 (by decide),
   (regs_C3 (RegSet.mk .ARCH_ARM 4 (fun _ => 7)) 3 (by norm_num)).2 (by decide)⟩

/-- C5: the supported register mask is the contiguous range up to each
architecture's maximum index, with exactly the DS/ES/FS/GS bits cleared on
the two x86 variants, no exclusions on ARM/ARM64/RISCV64, and zero for
UNSUPPORTED. -/
theorem regs_C5 :
    (∀ (a : ArchType) (i : Fin 64),
      (GetSupportedRegMask a).testBit i.val =
        (match a with
         | .ARCH_X86_32 =>
             decide (i.val < PERF_REG_X86_32_MAX) &&
               !(decide (i.val = PERF_REG_X86_DS) || decide (i.val = PERF_REG_X86_ES) ||
                 decide (i.val = PERF_REG_X86_FS) || decide (i.val = PERF_REG_X86_GS))
         | .ARCH_X86_64 =>
             decide (i.val < PERF_REG_X86_64_MAX) &&
               !(decide (i.val = PERF_REG_X86_DS) || decide (i.val = PERF_REG_X86_ES) ||
                 decide (i.val = PERF_REG_X86_FS) || decide (i.val = PERF_REG_X86_GS))
         | .ARCH_ARM => decide (i.val < PERF_REG_ARM_MAX)
         | .ARCH_ARM64 => decide (i.val < PERF_REG_ARM64_MAX)
         | .ARCH_RISCV64 => decide (i.val < PERF_REG_RISCV_MAX)
         | .ARCH_UNSUPPORTED => false)) ∧
    GetSupportedRegMask .ARCH_UNSUPPORTED = 0 := by
  refine ⟨?_, rfl⟩
  intro a i
  cases a <;> revert i <;> decide

/-- C6: `GetArchType` maps the literal tokens "x86"/"i686" to X86_32,
"x86_64" to X86_64, "riscv64" to RISCV64, "aarch64" to ARM64; any token
beginning with "arm" to ARM except when the 4th character is 'v' and the
version suffix parses to at least 8, which yields ARM64 ("armv8l" gives
ARM64, "armv7l" gives ARM, "arm" gives ARM); every other string yields
UNSUPPORTED, with no crash (the function is total). -/
theorem regs_C6 :
    (∀ s : List Char, GetArchType s =
      if s = "x86".toList ∨ s = "i686".toList then .ARCH_X86_32
      else if s = "x86_64".toList then .ARCH_X86_64
      else if s = "riscv64".toList then .ARCH_RISCV64
      else if s = "aarch64".toList then .ARCH_ARM64
      else if "arm".toList.isPrefixOf s then
        (if s.getD 3 (Char.ofNat 0) = 'v' ∧ 8 ≤ atoi (s.drop 4) then .ARCH_ARM64
         else .ARCH_ARM)
      else .ARCH_UNSUPPORTED)
    ∧ GetArchType "armv8l".toList = .ARCH_ARM64
    ∧ GetArchType "armv7l".toList = .ARCH_ARM
    ∧ GetArchType "arm".toList = .ARCH_ARM
    ∧ GetArchType "armv9".toList = .ARCH_ARM64
    ∧ GetArchType "x86".toList = .ARCH_X86_32
    ∧ GetArchType "i686".toList = .ARCH_X86_32
    ∧ GetArchType "x86_64".toList = .ARCH_X86_64
    ∧ GetArchType "riscv64".toList = .ARCH_RISCV64
    ∧ GetArchType "aarch64".toList = .ARCH_ARM64
    ∧ GetArchType "powerpc".toList = .ARCH_UNSUPPORTED :=
  ⟨fun _ => rfl, by decide, by decide, by decide, by decide, by decide,
   by decide, by decide, by decide, by decide, by decide⟩

/-- C7: register-name resolution is total (no fatal `CHECK`) on every index
in each architecture's supported mask, and yields the documented literal
names: X86 AX gives "ax", X86_64 R8..R15 give "r8".."r15", ARM64 X5 gives
"r5", RISCV64 A0 gives "a0". -/
theorem regs_C7 :
    (∀ (a : ArchType) (i : Fin 64),
      (GetSupportedRegMask a).testBit i.val = true →
      (GetRegName i.val a).isSome = true)
    ∧ GetRegName PERF_REG_X86_AX .ARCH_X86_32 = some "ax"
    ∧ (∀ k : Fin 8,
        GetRegName (PERF_REG_X86_R8 + k.val) .ARCH_X86_64 =
          some ("r" ++ toString (8 + k.val)))
    ∧ GetRegName 5 .ARCH_ARM64 = some "r5"
    ∧ GetRegName PERF_REG_RISCV_A0 .ARCH_RISCV64 = some "a0" := by
  refine ⟨?_, by decide, by decide, by decide, by decide⟩
  intro a i
  revert i
  cases a <;> decide

theorem regs_C7_witness :
    (GetSupportedRegMask .ARCH_X86_64).testBit 16 = true ∧
    (GetRegName 16 .ARCH_X86_64).isSome = true :=
  ⟨by decide, regs_C7.1 .ARCH_X86_64 ⟨16, by norm_num⟩ (by decide)⟩

/-- C8 counterexample: ARM index 16 is neither in the general-purpose range
R0..R10 nor a key of the fp/ip/sp/lr/pc table, yet `GetRegName` returns
"r16" (the `FALLTHROUGH_INTENDED` into the ARM64 case), not "unknown". -/
theorem regs_C8_counterexample :
    ¬(PERF_REG_ARM_R0 ≤ 16 ∧ 16 ≤ PERF_REG_ARM_R10) ∧
    (arm_reg_map.lookup 16 = none) ∧
    GetRegName 16 .ARCH_ARM = some "r16" ∧
    ¬(GetRegName 16 .ARCH_ARM = some "unknown") := by
  decide

/-- C8 (amended): for ARM indices below 64 that are neither in R0..R10 nor
keys of the fp/ip/sp/lr/pc table, `GetRegName` does not fall through to
"unknown"; it falls through to the ARM64 handling: indices up to X29 yield
"r16".."r29", the ARM64 lr/sp/pc table covers 30..32, and any other index is
a fatal table miss. -/
theorem regs_C8_amended :
    ∀ i : Fin 64,
      ¬(PERF_REG_ARM_R0 ≤ i.val ∧ i.val ≤ PERF_REG_ARM_R10) →
      arm_reg_map.lookup i.val = none →
      GetRegName i.val .ARCH_ARM =
        (if PERF_REG_ARM64_X0 ≤ i.val ∧ i.val ≤ PERF_REG_ARM64_X29 then
          some ("r" ++ toString (i.val - PERF_REG_ARM64_X0))
         else arm64_reg_map.lookup i.val) := by
  decide

theorem regs_C8_witness : GetRegName 16 .ARCH_ARM = some "r16" := by
  have h := regs_C8_amended ⟨16, by norm_num⟩ (by decide) (by decide)
  simpa using h

/-- The architecture-specific stack-pointer register index used by
`GetSpRegValue`'s dispatch (unused for UNSUPPORTED, which never looks up). -/
def spRegnoOf : ArchType → Nat
  | .ARCH_X86_32 => PERF_REG_X86_SP
  | .ARCH_X86_64 => PERF_REG_X86_SP
  | .ARCH_ARM => PERF_REG_ARM_SP
  | .ARCH_ARM64 => PERF_REG_ARM64_SP
  | .ARCH_RISCV64 => PERF_REG_RISCV_SP
  | .ARCH_UNSUPPORTED => 0

/-- The architecture-specific program-counter register index used by
`GetIpRegValue`'s dispatch; the two x86 variants share `PERF_REG_X86_IP`. -/
def ipRegnoOf : ArchType → Nat
  | .ARCH_X86_32 => PERF_REG_X86_IP
  | .ARCH_X86_64 => PERF_REG_X86_IP
  | .ARCH_ARM => PERF_REG_ARM_PC
  | .ARCH_ARM64 => PERF_REG_ARM64_PC
  | .ARCH_RISCV64 => PERF_REG_RISCV_PC
  | .ARCH_UNSUPPORTED => 0

/-- C9: `GetSpRegValue` and `GetIpRegValue` report failure immediately (no
lookup, no crash) when the effective architecture is UNSUPPORTED, and
otherwise delegate to `GetRegValue` at the architecture-specific SP/PC index
(shared x86 IP index), succeeding exactly when that register's presence bit
is set. -/
theorem regs_C9 (r : RegSet) :
    (r.arch = .ARCH_UNSUPPORTED →
      r.GetSpRegValue = .failure ∧ r.GetIpRegValue = .failure) ∧
    (r.arch ≠ .ARCH_UNSUPPORTED →
      r.GetSpRegValue = r.GetRegValue (spRegnoOf r.arch) ∧
      r.GetIpRegValue = r.GetRegValue (ipRegnoOf r.arch) ∧
      ((∃ v, r.GetSpRegValue = .success v) ↔
        r.valid_mask.testBit (spRegnoOf r.arch) = true) ∧
      ((∃ v, r.GetIpRegValue = .success v) ↔
        r.valid_mask.testBit (ipRegnoOf r.arch) = true)) := by
  obtain ⟨a, m, d⟩ := r
  cases a with
  | ARCH_X86_32 =>
      exact ⟨fun h => by simp at h, fun _ => ⟨rfl, rfl,
        getRegValue_success_iff ⟨.ARCH_X86_32, m, d⟩ (spRegnoOf .ARCH_X86_32)
          (by norm_num [spRegnoOf, PERF_REG_X86_SP]),
        getRegValue_success_iff ⟨.ARCH_X86_32, m, d⟩ (ipRegnoOf .ARCH_X86_32)
          (by norm_num [ipRegnoOf, PERF_REG_X86_IP])⟩⟩
  | ARCH_X86_64 =>
      exact ⟨fun h => by simp at h, fun _ => ⟨rfl, rfl,
        getRegValue_success_iff ⟨.ARCH_X86_64, m, d⟩ (spRegnoOf .ARCH_X86_64)
          (by norm_num [spRegnoOf, PERF_REG_X86_SP]),
        getRegValue_success_iff ⟨.ARCH_X86_64, m, d⟩ (ipRegnoOf .ARCH_X86_64)
          (by norm_num [ipRegnoOf, PERF_REG_X86_IP])⟩⟩
  | ARCH_ARM =>
      exact ⟨fun h => by simp at h, fun _ => ⟨rfl, rfl,
        getRegValue_success_iff ⟨.ARCH_ARM, m, d⟩ (spRegnoOf .ARCH_ARM)
          (by norm_num [spRegnoOf, PERF_REG_ARM_SP]),
        getRegValue_success_iff ⟨.ARCH_ARM, m, d⟩ (ipRegnoOf .ARCH_ARM)
          (by norm_num [ipRegnoOf, PERF_REG_ARM_PC])⟩⟩
  | ARCH_ARM64 =>
      exact ⟨fun h => by simp at h, fun _ => ⟨rfl, rfl,
        getRegValue_success_iff ⟨.ARCH_ARM64, m, d⟩ (spRegnoOf .ARCH_ARM64)
          (by norm_num [spRegnoOf, PERF_REG_ARM64_SP]),
        getRegValue_success_iff ⟨.ARCH_ARM64, m, d⟩ (ipRegnoOf .ARCH_ARM64)
          (by norm_num [ipRegnoOf, PERF_REG_ARM64_PC])⟩⟩
  | ARCH_RISCV64 =>
      exact ⟨fun h => by simp at h, fun _ => ⟨rfl, rfl,
        getRegValue_success_iff ⟨.ARCH_RISCV64, m, d⟩ (spRegnoOf .ARCH_RISCV64)
          (by norm_num [spRegnoOf, PERF_REG_RISCV_SP]),
        getRegValue_success_iff ⟨.ARCH_RISCV64, m, d⟩ (ipRegnoOf .ARCH_RISCV64)
          (by norm_num [ipRegnoOf, PERF_REG_RISCV_PC])⟩⟩
  | ARCH_UNSUPPORTED =>
      exact ⟨fun _ => ⟨rfl, rfl⟩, fun h => absurd rfl h⟩

theorem regs_C9_witness :
    (RegSet.mk .ARCH_UNSUPPORTED 0 (fun _ => 0)).GetSpRegValue = .failure ∧
    (RegSet.mk .ARCH_UNSUPPORTED 0 (fun _ => 0)).GetIpRegValue = .failure ∧
    (RegSet.mk .ARCH_ARM 4 (fun _ => 7)).GetSpRegValue =
      (RegSet.mk .ARCH_ARM 4 (fun _ => 7)).GetRegValue (spRegnoOf .ARCH_ARM) :=
  ⟨((regs_C9 (RegSet.mk .ARCH_UNSUPPORTED 0 (fun _ => 0))).1 rfl).1,
   ((regs_C9 (RegSet.mk .ARCH_UNSUPPORTED 0 (fun _ => 0))).1 rfl).2,
   ((regs_C9 (RegSet.mk .ARCH_ARM 4 (fun _ => 7))).2 (by decide)).1⟩

/-- C1: the construction's expansion walk visits bit indices 0..63 in
increasing order and stores, at each set bit `k`, the packed entry whose
rank equals the number of set bits below `k` (the next unconsumed entry),
leaving unset slots at their zero initialisation; and concretely, for any
host architecture and ABI, constructing with bits {2,5,9} set and packed
values [v0,v1,v2] succeeds with data[2]=v0, data[5]=v1, data[9]=v2, and
`GetRegValue` succeeding exactly at indices {2,5,9}. -/
theorem regs_C1 :
    (∀ (mask : Nat) (vals : List Nat) (data0 : Nat → Nat),
      vals.length = rankBelow mask 64 →
      ∃ d, expandLoop mask 0 vals data0 = some d ∧
        ∀ k : Fin 64,
          d k.val = if mask.testBit k.val then vals.getD (rankBelow mask k.val) 0
                    else data0 k.val)
    ∧ (∀ (current_arch : ArchType) (abi v0 v1 v2 : Nat),
        ∃ r, RegSet.make current_arch abi (2 ^ 2 + 2 ^ 5 + 2 ^ 9) [v0, v1, v2] = some r ∧
          r.data 2 = v0 ∧ r.data 5 = v1 ∧ r.data 9 = v2 ∧
          ∀ regno : Fin 64,
            (∃ v, r.GetRegValue regno.val = .success v) ↔
              (regno.val = 2 ∨ regno.val = 5 ∨ regno.val = 9)) := by
  constructor
  · intro mask vals data0 hlen
    obtain ⟨d, hd, hdk⟩ := expandLoop_full mask vals data0 hlen
    exact ⟨d, hd, fun k => hdk k.val k.isLt⟩
  · intro current_arch abi v0 v1 v2
    have hlen : ([v0, v1, v2] : List Nat).length = rankBelow (2 ^ 2 + 2 ^ 5 + 2 ^ 9) 64 := by
      rw [show rankBelow (2 ^ 2 + 2 ^ 5 + 2 ^ 9) 64 = 3 from by decide]
      rfl
    obtain ⟨r, hr, _, hmask, hdata⟩ :=
      RegSet.make_spec current_arch abi (2 ^ 2 + 2 ^ 5 + 2 ^ 9) [v0, v1, v2] hlen
    refine ⟨r, hr, ?_, ?_, ?_, ?_⟩
    · rw [hdata 2 (by norm_num), if_neg (by simp [PERF_REG_ARM_PC]),
        if_pos (show Nat.testBit (2 ^ 2 + 2 ^ 5 + 2 ^ 9) 2 = true from by decide),
        show rankBelow (2 ^ 2 + 2 ^ 5 + 2 ^ 9) 2 = 0 from by decide]
      rfl
    · rw [hdata 5 (by norm_num), if_neg (by simp [PERF_REG_ARM_PC]),
        if_pos (show Nat.testBit (2 ^ 2 + 2 ^ 5 + 2 ^ 9) 5 = true from by decide),
        show rankBelow (2 ^ 2 + 2 ^ 5 + 2 ^ 9) 5 = 1 from by decide]
      rfl
    · rw [hdata 9 (by norm_num), if_neg (by simp [PERF_REG_ARM_PC]),
        if_pos (show Nat.testBit (2 ^ 2 + 2 ^ 5 + 2 ^ 9) 9 = true from by decide),
        show rankBelow (2 ^ 2 + 2 ^ 5 + 2 ^ 9) 9 = 2 from by decide]
      rfl
    · intro k
      rw [getRegValue_success_iff r k.val k.isLt, hmask]
      revert k
      decide

theorem regs_C1_witness :
    (∃ d, expandLoop 548 0 [70, 80, 90] (fun _ => 0) = some d ∧
      ∀ k : Fin 64,
        d k.val = if Nat.testBit 548 k.val then [70, 80, 90].getD (rankBelow 548 k.val) 0
                  else 0)
    ∧ (∃ r, RegSet.make .ARCH_ARM64 1 (2 ^ 2 + 2 ^ 5 + 2 ^ 9) [70, 80, 90] = some r ∧
        r.data 2 = 70 ∧ r.data 5 = 80 ∧ r.data 9 = 90 ∧
        ∀ regno : Fin 64,
          (∃ v, r.GetRegValue regno.val = .success v) ↔
            (regno.val = 2 ∨ regno.val = 5 ∨ regno.val = 9)) :=
  ⟨regs_C1.1 548 [70, 80, 90] (fun _ => 0) (by decide),
   regs_C1.2 .ARCH_ARM64 1 70 80 90⟩

/-- C4: under an ARM64 host and a 32-bit ABI tag, construction succeeds on
any well-formed packed payload, resolves the effective architecture to ARM,
and afterwards the ARM program-counter slot holds the (post-expansion) ARM64
program-counter value, whether or not the ARM PC bit was set in the mask. -/
theorem regs_C4 (abi mask : Nat) (vals : List Nat)
    (habi : abi = PERF_SAMPLE_REGS_ABI_32)
    (hlen : vals.length = rankBelow mask 64) :
    ∃ r, RegSet.make .ARCH_ARM64 abi mask vals = some r ∧
      r.arch = .ARCH_ARM ∧
      r.data PERF_REG_ARM_PC = r.data PERF_REG_ARM64_PC := by
  subst habi
  obtain ⟨r, hr, harch, _, hdata⟩ :=
    RegSet.make_spec .ARCH_ARM64 PERF_SAMPLE_REGS_ABI_32 mask vals hlen
  refine ⟨r, hr, ?_, ?_⟩
  · rw [harch]
    rfl
  · rw [hdata PERF_REG_ARM_PC (by norm_num [PERF_REG_ARM_PC]),
      hdata PERF_REG_ARM64_PC (by norm_num [PERF_REG_ARM64_PC]),
      if_pos (show ArchType.ARCH_ARM64 = ArchType.ARCH_ARM64 ∧
          PERF_SAMPLE_REGS_ABI_32 = PERF_SAMPLE_REGS_ABI_32 ∧
          PERF_REG_ARM_PC = PERF_REG_ARM_PC from ⟨rfl, rfl, rfl⟩),
      if_neg (show ¬(ArchType.ARCH_ARM64 = ArchType.ARCH_ARM64 ∧
          PERF_SAMPLE_REGS_ABI_32 = PERF_SAMPLE_REGS_ABI_32 ∧
          PERF_REG_ARM64_PC = PERF_REG_ARM_PC) from by
        simp [PERF_REG_ARM64_PC, PERF_REG_ARM_PC])]

theorem regs_C4_witness :
    ∃ r, RegSet.make .ARCH_ARM64 1 (2 ^ 32) [123] = some r ∧
      r.arch = .ARCH_ARM ∧
      r.data PERF_REG_ARM_PC = r.data PERF_REG_ARM64_PC :=
  regs_C4 1 (2 ^ 32) [123] rfl (by decide)

/-- C10: the ARM64-host/32-bit-ABI quirk copies only the data value, never
the presence bit: the stored `valid_mask` is exactly the input mask, so with
the ARM PC bit unset `GetRegValue` at the ARM PC index and `GetIpRegValue`
on the resulting ARM `RegSet` both fail, even though the data slot holds the
copied ARM64 PC value. -/
theorem regs_C10 (mask : Nat) (vals : List Nat)
    (hlen : vals.length = rankBelow mask 64)
    (hpc : mask.testBit PERF_REG_ARM_PC = false) :
    ∃ r, RegSet.make .ARCH_ARM64 PERF_SAMPLE_REGS_ABI_32 mask vals = some r ∧
      r.valid_mask = mask ∧ r.arch = .ARCH_ARM ∧
      r.GetRegValue PERF_REG_ARM_PC = .failure ∧
      r.GetIpRegValue = .failure ∧
      r.data PERF_REG_ARM_PC = r.data PERF_REG_ARM64_PC := by
  obtain ⟨r, hr, harch, hmask, hdata⟩ :=
    RegSet.make_spec .ARCH_ARM64 PERF_SAMPLE_REGS_ABI_32 mask vals hlen
  have ha : r.arch = .ARCH_ARM := harch
  have hfail : r.GetRegValue PERF_REG_ARM_PC = .failure := by
    rw [RegSet.GetRegValue, if_pos (by norm_num [PERF_REG_ARM_PC]), hmask,
      if_neg ((testBit_false_iff_shift mask PERF_REG_ARM_PC).mp hpc)]
  have hip : r.GetIpRegValue = .failure := by
    rw [RegSet.GetIpRegValue, ha]
    exact hfail
  refine ⟨r, hr, hmask, ha, hfail, hip, ?_⟩
  rw [hdata PERF_REG_ARM_PC (by norm_num [PERF_REG_ARM_PC]),
    hdata PERF_REG_ARM64_PC (by norm_num [PERF_REG_ARM64_PC]),
    if_pos (show ArchType.ARCH_ARM64 = ArchType.ARCH_ARM64 ∧
        PERF_SAMPLE_REGS_ABI_32 = PERF_SAMPLE_REGS_ABI_32 ∧
        PERF_REG_ARM_PC = PERF_REG_ARM_PC from ⟨rfl, rfl, rfl⟩),
    if_neg (show ¬(ArchType.ARCH_ARM64 = ArchType.ARCH_ARM64 ∧
        PERF_SAMPLE_REGS_ABI_32 = PERF_SAMPLE_REGS_ABI_32 ∧
        PERF_REG_ARM64_PC = PERF_REG_ARM_PC) from by
      simp [PERF_REG_ARM64_PC, PERF_REG_ARM_PC])]

theorem regs_C10_witness :
    ∃ r, RegSet.make .ARCH_ARM64 PERF_SAMPLE_REGS_ABI_32 (2 ^ 32) [123] = some r ∧
      r.valid_mask = 2 ^ 32 ∧ r.arch = .ARCH_ARM ∧
      r.GetRegValue PERF_REG_ARM_PC = .failure ∧
      r.GetIpRegValue = .failure ∧
      r.data PERF_REG_ARM_PC = r.data PERF_REG_ARM64_PC :=
  regs_C10 (2 ^ 32) [123] (by decide) (by decide)

end Simpleperf
